import Mathlib

/-!
Shallow embedding of the conda-content-trust signing and verification engine.

The Python modules signing.py, root_signing.py and cli.py are translated
directly.  Helpers that live in common.py and authentication.py, which are not
among the sources here (the canonical codec, the key codec, the format checks,
and the two verification algorithms verify_delegation and verify_root), are
modelled from the specification, as marked on each such definition.
-/

namespace CondaContentTrust

/-- The decimal digit characters, in order. -/
def hexDigitDigits : List Char :=
  ['0', '1', '2', '3', '4', '5', '6', '7', '8', '9']

/-- The six lowercase letter characters of hexadecimal, in order. -/
def hexDigitLetters : List Char :=
  ['a', 'b', 'c', 'd', 'e', 'f']

/-- Lowercase hexadecimal digits, in order. -/
def hexDigitsList : List Char := hexDigitDigits ++ hexDigitLetters

/-- The character is a lowercase hexadecimal digit. -/
def isHexChar (c : Char) : Bool := hexDigitsList.contains c

/-- The string consists of exactly n lowercase hexadecimal characters. -/
def isHexStringOfLength (n : Nat) (s : String) : Bool :=
  s.length == n && s.data.all isHexChar

/-- The hex digit character for n mod 16. -/
def hexDigitChar (n : Nat) : Char := hexDigitsList.getD (n % 16) '0'

/-- Little-endian list of w hex digits of n. -/
def natToHexRev : Nat → Nat → List Char
  | 0, _ => []
  | w + 1, n => hexDigitChar (n % 16) :: natToHexRev w (n / 16)

/-- n rendered as exactly w lowercase hex digits, big-endian, truncating mod 16 ^ w. -/
def natToHexPad (w n : Nat) : String := String.mk (natToHexRev w n).reverse

/-- Modelled from the spec: a deterministic integer digest of a string, used to
build the executable model of ed25519 key derivation and signing (the key codec
of common.py is not among the sources). -/
def strHash (s : String) : Nat :=
  s.data.foldl (fun a c => a * 131 + c.toNat + 7) 11

/-- Modelled from the spec: the public key derived from a private key seed,
64 lowercase hex characters representing 32 bytes. -/
def pubkeyOfSeed (privateKeyHex : String) : String :=
  natToHexPad 64 (strHash ("ed25519-public:" ++ privateKeyHex))

/-- Modelled from the spec: the unique valid signature value over a message for
a public key, 128 lowercase hex characters representing 64 bytes.  Ed25519
signing is deterministic, so the valid signature is a function of the message
and the key. -/
def mkSigFor (message : String) (publicKeyHex : String) : String :=
  natToHexPad 128 (strHash (publicKeyHex ++ ":" ++ message))

/-- Modelled from the spec: sign a message with a private key seed; this is
PrivateKey.sign followed by hex encoding. -/
def ed25519Sign (message : String) (privateKeyHex : String) : String :=
  mkSigFor message (pubkeyOfSeed privateKeyHex)

/-- Modelled from the spec: boolean signature verification; it never throws,
a bad signature is an ordinary false result. -/
def ed25519Verify (signatureHex message publicKeyHex : String) : Bool :=
  signatureHex == mkSigFor message publicKeyHex

/-- First binding of a key in an association list, the model of Python dict
lookup (parsed JSON objects and Python dicts have unique keys). -/
def dictLookup {α : Type} : List (String × α) → String → Option α
  | [], _ => Option.none
  | (k, v) :: rest, key => if k = key then some v else dictLookup rest key

/-- Python dict assignment: replace the first binding of the key in place, or
append a new binding at the end. -/
def dictSet {α : Type} : List (String × α) → String → α → List (String × α)
  | [], key, value => [(key, value)]
  | (k, v) :: rest, key, value =>
    if k = key then (k, value) :: rest else (k, v) :: dictSet rest key value

/-- A Python runtime value, as far as the signing code can observe it: the
JSON-serializable kinds, plus a constructor for values of any other concrete
type.  The latter may still carry dict-like structure, so that strict
concrete-type checking and structural (duck-typed) acceptance are
distinguishable in the model. -/
inductive PyValue : Type where
  | none : PyValue
  | bool : Bool → PyValue
  | int : Int → PyValue
  | float : String → Bool → PyValue
  | str : String → PyValue
  | list : List PyValue → PyValue
  | dict : List (String × PyValue) → PyValue
  | other : String → List (String × PyValue) → PyValue

/-- The concrete Python type of a value, the result of type(obj). -/
inductive PyType : Type where
  | noneType : PyType
  | boolType : PyType
  | intType : PyType
  | floatType : PyType
  | strType : PyType
  | listType : PyType
  | dictType : PyType
  | otherType : String → PyType
deriving DecidableEq

/-- The concrete Python type of a value, as computed by type(obj).  The float constructor carries its
textual rendering and whether the value is finite; its concrete type is float
either way. -/
def pyTypeOf : PyValue → PyType
  | PyValue.none => PyType.noneType
  | PyValue.bool _ => PyType.boolType
  | PyValue.int _ => PyType.intType
  | PyValue.float _ _ => PyType.floatType
  | PyValue.str _ => PyType.strType
  | PyValue.list _ => PyType.listType
  | PyValue.dict _ => PyType.dictType
  | PyValue.other t _ => PyType.otherType t

/-- Python exception kinds raised by the modelled code. -/
inductive PyError : Type where
  | TypeError : String → PyError
  | ValueError : String → PyError
  | AttributeError : String → PyError
deriving DecidableEq

mutual
/-- Model of copy.deepcopy on the modelled values: a full structural copy. -/
def deepcopy : PyValue → PyValue
  | PyValue.none => PyValue.none
  | PyValue.bool b => PyValue.bool b
  | PyValue.int n => PyValue.int n
  | PyValue.float r finite => PyValue.float r finite
  | PyValue.str s => PyValue.str s
  | PyValue.list xs => PyValue.list (deepcopyList xs)
  | PyValue.dict kvs => PyValue.dict (deepcopyKvs kvs)
  | PyValue.other t kvs => PyValue.other t (deepcopyKvs kvs)

def deepcopyList : List PyValue → List PyValue
  | [] => []
  | v :: vs => deepcopy v :: deepcopyList vs

def deepcopyKvs : List (String × PyValue) → List (String × PyValue)
  | [] => []
  | (k, v) :: kvs => (k, deepcopy v) :: deepcopyKvs kvs
end

/-- Quote a string for the canonical encoding.  Escaping of special characters
inside the string is abstracted; determinism is preserved. -/
def jsonQuote (s : String) : String := "\"" ++ s ++ "\""

/-- Join rendered elements with commas. -/
def joinComma (ss : List String) : String := String.intercalate "," ss

/-- Insert a keyed pair into a list sorted by key (insertion sort step). -/
def insertByKey {α : Type} (p : String × α) : List (String × α) → List (String × α)
  | [] => [p]
  | q :: rest => if p.1 ≤ q.1 then p :: q :: rest else q :: insertByKey p rest

/-- Sort keyed pairs lexicographically by key. -/
def sortByKey {α : Type} : List (String × α) → List (String × α)
  | [] => []
  | p :: rest => insertByKey p (sortByKey rest)

mutual
/-- Modelled from the spec: canonserialize from common.py.  A deterministic
JSON-style encoding: object keys are sorted lexicographically at every nesting
level, numeric rendering is stable, and it fails with a format fault for any
value outside the closed Payload kind set (non-finite floats, values of
unsupported concrete type) before any cryptographic work.  The concrete
whitespace and indentation of the real encoder are abstracted; determinism and
the kind checks are preserved. -/
def canonSer : PyValue → Except PyError String
  | PyValue.none => Except.ok "null"
  | PyValue.bool b => Except.ok (if b then "true" else "false")
  | PyValue.int n => Except.ok (toString n)
  | PyValue.float r finite =>
    if finite then Except.ok r
    else Except.error (PyError.ValueError "Out of range float values are not JSON compliant")
  | PyValue.str s => Except.ok (jsonQuote s)
  | PyValue.list xs =>
    match canonSerList xs with
    | Except.error e => Except.error e
    | Except.ok ss => Except.ok ("[" ++ joinComma ss ++ "]")
  | PyValue.dict kvs =>
    match canonSerKvs kvs with
    | Except.error e => Except.error e
    | Except.ok ps =>
      Except.ok ("\x7b" ++ joinComma ((sortByKey ps).map (fun p => jsonQuote p.1 ++ ":" ++ p.2)) ++ "\x7d")
  | PyValue.other t _ =>
    Except.error (PyError.TypeError ("Object of type " ++ t ++ " is not JSON serializable"))

def canonSerList : List PyValue → Except PyError (List String)
  | [] => Except.ok []
  | v :: vs =>
    match canonSer v with
    | Except.error e => Except.error e
    | Except.ok s =>
      match canonSerList vs with
      | Except.error e => Except.error e
      | Except.ok ss => Except.ok (s :: ss)

def canonSerKvs : List (String × PyValue) → Except PyError (List (String × String))
  | [] => Except.ok []
  | (k, v) :: kvs =>
    match canonSer v with
    | Except.error e => Except.error e
    | Except.ok s =>
      match canonSerKvs kvs with
      | Except.error e => Except.error e
      | Except.ok ps => Except.ok ((k, s) :: ps)
end

/-- One entry of the signatures map of an envelope: the signature hex string
plus the optional OpenPGP-only fields.  keyid is the transient field produced
by the GPG backend, which the code deletes before storing a record. -/
structure SigRecord : Type where
  signature : String
  other_headers : Option String := Option.none
  see_also : Option String := Option.none
  keyid : Option String := Option.none
deriving DecidableEq

/-- A signable envelope over an arbitrary payload: the signatures map plus the
signed payload, as produced by wrap_as_signable. -/
structure Signable : Type where
  signatures : List (String × SigRecord)
  signed : PyValue

/-- Modelled from the spec: checkformat_hex_key from common.py -- a
64-character lowercase hex string (32 bytes). -/
def checkformat_hex_key (s : String) : Bool := isHexStringOfLength 64 s

/-- Modelled from the spec: checkformat_key from common.py on a private key;
the key material is carried as its 64-hex-char seed. -/
def checkformat_key (privateKeyHex : String) : Bool := checkformat_hex_key privateKeyHex

/-- Modelled from the spec: checkformat_signature from common.py -- a signature
record whose signature value is 128 lowercase hex characters (64 bytes). -/
def checkformat_signature (rec : SigRecord) : Bool := isHexStringOfLength 128 rec.signature

/-- Modelled from the spec: checkformat_signature applied to the plain-dict
form of a signature record used inside repodata. -/
def checkformat_signature_dict (v : PyValue) : Bool :=
  match v with
  | PyValue.dict [("signature", PyValue.str s)] => isHexStringOfLength 128 s
  | _ => false

/-- Modelled from the spec: checkformat_gpg_fingerprint from common.py -- a
40-character lowercase hex string (20 bytes). -/
def checkformat_gpg_fingerprint (s : String) : Bool := isHexStringOfLength 40 s

/-- SUPPORTED_SERIALIZABLE_TYPES.  Modelled from the spec: the closed set of
Payload kinds -- null, boolean, integer, float, string, list, object. -/
def SUPPORTED_SERIALIZABLE_TYPES : List PyType :=
  [PyType.dictType, PyType.listType, PyType.strType, PyType.intType,
   PyType.floatType, PyType.noneType, PyType.boolType]

/-- wrap_as_signable from signing.py: a strict concrete-type check against
SUPPORTED_SERIALIZABLE_TYPES (not duck typing), raising TypeError on any other
type, then return the fresh envelope holding a deep copy of the payload.  No
canonicalization or cryptography is involved. -/
def wrap_as_signable (obj : PyValue) : Except PyError Signable :=
  if pyTypeOf obj ∈ SUPPORTED_SERIALIZABLE_TYPES then
    Except.ok { signatures := [], signed := deepcopy obj }
  else
    Except.error (PyError.TypeError
      "wrap_dict_as_signable requires a JSON-serializable object, but the given argument is of an unsupported type")

/-- serialize_and_sign from signing.py: canonserialize the object, sign the
result with the private key, and return the signature as a hex string. -/
def serialize_and_sign (obj : PyValue) (privateKeyHex : String) : Except PyError String :=
  match canonSer obj with
  | Except.error e => Except.error e
  | Except.ok serialized => Except.ok (ed25519Sign serialized privateKeyHex)

/-- sign_signable from signing.py: after checking the key format (the signable
structure check of the source is enforced here by the Signable type itself),
sign the canonical serialization of the signed portion and store the signature
record in the signatures map under the hex of the public key derived from the
private key, overwriting any prior entry under that key. -/
def sign_signable (signable : Signable) (privateKeyHex : String) : Except PyError Signable :=
  if checkformat_key privateKeyHex then
    match serialize_and_sign signable.signed privateKeyHex with
    | Except.error e => Except.error e
    | Except.ok signatureHex =>
      let publicKeyHex := pubkeyOfSeed privateKeyHex
      let signatureDict : SigRecord := { signature := signatureHex }
      if checkformat_signature signatureDict then
        Except.ok { signable with
          signatures := dictSet signable.signatures publicKeyHex signatureDict }
      else
        Except.error (PyError.TypeError "Expected a signature record")
  else
    Except.error (PyError.TypeError "Expected a key")

/-- The inner loop of sign_all_in_repodata: for each artifact entry, sign the
canonical serialization of its metadata with the private key and store, under
the artifact name, the single-entry map from the public key hex to the
signature record.  The first loop of the source (over packages) re-checks the
record format; the second (over packages.conda) does not, so the check is a
parameter. -/
def sign_repodata_loop (withCheck : Bool) (publicHex privateKeyHex : String) :
    List (String × PyValue) → List (String × PyValue) → Except PyError (List (String × PyValue))
  | [], sigs => Except.ok sigs
  | (artifactName, metadata) :: rest, sigs =>
    match serialize_and_sign metadata privateKeyHex with
    | Except.error e => Except.error e
    | Except.ok signatureHex =>
      let signatureDict : PyValue := PyValue.dict [("signature", PyValue.str signatureHex)]
      if withCheck && !(checkformat_signature_dict signatureDict) then
        Except.error (PyError.TypeError "Expected a signature record")
      else
        sign_repodata_loop withCheck publicHex privateKeyHex rest
          (dictSet sigs artifactName (PyValue.dict [(publicHex, signatureDict)]))

/-- sign_all_in_repodata from signing.py, at the level of the repodata mapping
(the file read and write around it are elided).  Requires a packages entry,
replaces any prior top-level signatures value with a fresh empty mapping, then
fills it with one entry per artifact in packages and in the optional
packages.conda, each mapping the public key hex to the signature record over
that artifact metadata. -/
def sign_all_in_repodata (repodata : List (String × PyValue)) (privateKeyHex : String) :
    Except PyError (List (String × PyValue)) :=
  if checkformat_hex_key privateKeyHex then
    let publicHex := pubkeyOfSeed privateKeyHex
    match dictLookup repodata "packages" with
    | Option.none => Except.error (PyError.ValueError "Expected a packages entry in given repodata file.")
    | some packagesVal =>
      match packagesVal with
      | PyValue.dict packages =>
        match sign_repodata_loop true publicHex privateKeyHex packages [] with
        | Except.error e => Except.error e
        | Except.ok sigsAfterPackages =>
          match dictLookup repodata "packages.conda" with
          | Option.none =>
            Except.ok (dictSet repodata "signatures" (PyValue.dict sigsAfterPackages))
          | some (PyValue.dict packagesConda) =>
            match sign_repodata_loop false publicHex privateKeyHex packagesConda sigsAfterPackages with
            | Except.error e => Except.error e
            | Except.ok sigsFinal =>
              Except.ok (dictSet repodata "signatures" (PyValue.dict sigsFinal))
          | some _ => Except.error (PyError.AttributeError "items")
      | _ => Except.error (PyError.AttributeError "items")
  else
    Except.error (PyError.ValueError "Expected a hex key")

/-- Modelled from the spec: the external signer collaborator resolves, for a
GPG fingerprint, the raw 32-byte ed25519 public key value q underlying the
OpenPGP key, expressed as 64 hex characters (securesystemslib export_pubkey is
an external dependency, not among the sources). -/
def gpg_raw_pubkey (fingerprint : String) : String :=
  natToHexPad 64 (strHash ("openpgp-q:" ++ fingerprint))

/-- Modelled from the spec: the external gpg create_signature collaborator.
It returns a record with keyid (the fingerprint), other_headers (extra data
mandated in OpenPGP signatures) and signature (the ed25519 signature, made
with the key underlying the fingerprint, over the OpenPGP-expanded payload). -/
def gpg_create_signature (dataToSign : String) (fingerprint : String) : SigRecord :=
  { signature := mkSigFor ("openpgp:" ++ dataToSign) (gpg_raw_pubkey fingerprint)
    other_headers := some (natToHexPad 50 (strHash ("openpgp-headers:" ++ fingerprint)))
    see_also := Option.none
    keyid := some fingerprint }

/-- sign_via_gpg from root_signing.py: validate the fingerprint, obtain the GPG
signature record, copy keyid into see_also only when the fingerprint was
explicitly requested, and delete keyid from the record. -/
def sign_via_gpg (dataToSign : String) (gpgKeyFingerprint : String) (includeFingerprint : Bool) :
    Except PyError SigRecord :=
  if checkformat_gpg_fingerprint gpgKeyFingerprint then
    let sig := gpg_create_signature dataToSign gpgKeyFingerprint
    let sig := if includeFingerprint then { sig with see_also := sig.keyid } else sig
    let sig := { sig with keyid := Option.none }
    Except.ok sig
  else
    Except.error (PyError.ValueError "Expected a GPG fingerprint")

/-- The normalization performed inside fetch_keyval_from_gpg in
root_signing.py: lowercase, then remove every plain space and every no-break
space (hex code a0), in that order, exactly as the source does. -/
def fetchNormalizeFingerprint (s : String) : String :=
  String.mk (((s.data.map Char.toLower).filter (fun c => c != ' ')).filter (fun c => c != '\xa0'))

/-- fetch_keyval_from_gpg from root_signing.py: normalize the fingerprint,
validate it as 40 hex characters, and resolve the raw ed25519 public key value
underlying the GPG key. -/
def fetch_keyval_from_gpg (fingerprint : String) : Except PyError String :=
  let fingerprint := fetchNormalizeFingerprint fingerprint
  if checkformat_gpg_fingerprint fingerprint then
    Except.ok (gpg_raw_pubkey fingerprint)
  else
    Except.error (PyError.ValueError "Expected a GPG fingerprint")

/-- sign_root_metadata_dict_via_gpg from root_signing.py: canonserialize the
signed portion, sign it via GPG (without the optional fingerprint field),
resolve the raw public key for the fingerprint, and store the signature record
under that raw public key, in place.  The is_signable check of the source is
enforced here by the Signable type itself. -/
def sign_root_metadata_dict_via_gpg (rootSignable : Signable) (gpgKeyFingerprint : String) :
    Except PyError Signable :=
  match canonSer rootSignable.signed with
  | Except.error e => Except.error e
  | Except.ok dataToSign =>
    match sign_via_gpg dataToSign gpgKeyFingerprint false with
    | Except.error e => Except.error e
    | Except.ok sigDict =>
      match fetch_keyval_from_gpg gpgKeyFingerprint with
      | Except.error e => Except.error e
      | Except.ok rawPubkey =>
        Except.ok { rootSignable with
          signatures := dictSet rootSignable.signatures rawPubkey sigDict }

/-- Python str whitespace for the purposes of str.split(): the common ASCII
whitespace characters together with the no-break space (hex code a0), which
Python treats as whitespace as well.  The model is restricted to these. -/
def isPyWhitespace (c : Char) : Bool :=
  c = ' ' ∨ c = '\t' ∨ c = '\n' ∨ c = '\r' ∨ c = '\x0b' ∨ c = '\x0c' ∨ c = '\xa0'

/-- The fingerprint normalization performed by the cli before calling into
root_signing (cli.py: join of str.split, then lower): remove all whitespace,
then lowercase. -/
def cliNormalizeFingerprint (s : String) : String :=
  String.mk ((s.data.filter (fun c => !(isPyWhitespace c))).map Char.toLower)

/-- The gpg-key-lookup path of the cli: normalize the externally-supplied
fingerprint string, then fetch the underlying raw ed25519 public key value. -/
def gpg_key_lookup (s : String) : Except PyError String :=
  fetch_keyval_from_gpg (cliNormalizeFingerprint s)

/-- Modelled from the spec: the error taxonomy of the verification engine
(common.py CCT_Error subclasses are not among the sources). -/
inductive CCTError : Type where
  | UnknownDelegationFault : String → CCTError
  | RoleMismatchFault : String → String → CCTError
  | InsufficientSignaturesFault : Nat → Nat → CCTError
  | VersionMismatchFault : Nat → Nat → CCTError
  | ChainVerificationFault : String → CCTError
deriving DecidableEq

/-- Modelled from the spec: a delegation record -- which public keys, and how
many of them, must co-sign metadata for a role. -/
structure Delegation : Type where
  pubkeys : List String
  threshold : Nat
deriving DecidableEq

/-- Modelled from the spec: the signed portion of role metadata -- its declared
type, version, timestamp and delegations. -/
structure RoleMetadata : Type where
  type : String
  version : Nat
  timestamp : String
  delegations : List (String × Delegation)
deriving DecidableEq

/-- Modelled from the spec: an envelope holding role metadata together with its
signatures map. -/
structure MetadataEnvelope : Type where
  signatures : List (String × SigRecord)
  signed : RoleMetadata
deriving DecidableEq

/-- Render one delegation deterministically for the canonical encoding. -/
def renderDelegation (d : Delegation) : String :=
  "(pubkeys=[" ++ String.intercalate "," d.pubkeys ++ "];threshold=" ++ toString d.threshold ++ ")"

/-- Modelled from the spec: the canonical serialization of the signed portion
of role metadata -- a deterministic encoding with the delegation keys sorted,
recomputed identically during signing and verification. -/
def canonSignedRole (m : RoleMetadata) : String :=
  "type=" ++ m.type ++ ";version=" ++ toString m.version ++ ";timestamp=" ++ m.timestamp ++
    ";delegations=" ++
    joinComma ((sortByKey m.delegations).map (fun p => p.1 ++ "->" ++ renderDelegation p.2))

/-- Modelled from the spec: the threshold tally of verify_delegation -- the
number of distinct public keys that appear both in the delegation key set and
in the signatures map of the untrusted envelope, and whose record parses and
whose signature verifies against the recomputed canonical bytes.  A key listed
twice in the delegation is counted once; an unparseable or invalid record is
skipped rather than fatal.  This predicate decides whether one key counts. -/
def keyCountsTowardTally (sigs : List (String × SigRecord)) (serialized : String) (k : String) : Bool :=
  match dictLookup sigs k with
  | some rec => checkformat_signature rec && ed25519Verify rec.signature serialized k
  | Option.none => false

/-- Modelled from the spec: the tally proper -- distinct keys of the delegation
key set that count. -/
def signature_tally (d : Delegation) (sigs : List (String × SigRecord)) (serialized : String) : Nat :=
  (d.pubkeys.dedup.filter (keyCountsTowardTally sigs serialized)).length

/-- Modelled from the spec: verify_delegation from authentication.py.  Look up
the delegation for the role in the trusted envelope (unknown-delegation fault
if absent); fail with a role-mismatch fault if the untrusted envelope does not
declare the role name as its type; recompute the canonical bytes of the
untrusted payload; accept iff the tally of distinct valid signing keys reaches
the delegation threshold, otherwise fail with an insufficient-signatures fault
carrying the tally and the required threshold. -/
def verify_delegation (delegationName : String) (untrusted trusted : MetadataEnvelope) :
    Except CCTError Unit :=
  match dictLookup trusted.signed.delegations delegationName with
  | Option.none => Except.error (CCTError.UnknownDelegationFault delegationName)
  | some d =>
    if untrusted.signed.type = delegationName then
      let serialized := canonSignedRole untrusted.signed
      let tally := signature_tally d untrusted.signatures serialized
      if d.threshold ≤ tally then Except.ok ()
      else Except.error (CCTError.InsufficientSignaturesFault tally d.threshold)
    else
      Except.error (CCTError.RoleMismatchFault delegationName untrusted.signed.type)

/-- Modelled from the spec: verify_root from authentication.py.  Structural
checks first: both envelopes declare type root, and the untrusted version is
exactly the trusted version plus one (version-mismatch fault otherwise); then
the continuity check (the untrusted root against the delegation of the trusted
root) and the self-consistency check (the untrusted root against its own
delegation), failing with a chain-verification fault naming the failed check. -/
def verify_root (trusted untrusted : MetadataEnvelope) : Except CCTError Unit :=
  if trusted.signed.type = "root" ∧ untrusted.signed.type = "root" then
    if untrusted.signed.version = trusted.signed.version + 1 then
      match verify_delegation "root" untrusted trusted with
      | Except.error _ => Except.error (CCTError.ChainVerificationFault "continuity")
      | Except.ok () =>
        match verify_delegation "root" untrusted untrusted with
        | Except.error _ => Except.error (CCTError.ChainVerificationFault "self-consistency")
        | Except.ok () => Except.ok ()
    else
      Except.error (CCTError.VersionMismatchFault (trusted.signed.version + 1) untrusted.signed.version)
  else
    Except.error (CCTError.RoleMismatchFault "root"
      (if trusted.signed.type = "root" then untrusted.signed.type else trusted.signed.type))

/-- The verify-metadata subcommand of cli.py, at the level of the two loaded
envelopes: dispatch on the declared type of the untrusted metadata; for root,
run verify_root and return 0 on success and error code 10 on any verification
fault; for any other role, run verify_delegation with the declared type as the
delegation name and return 0 on success and error code 20 on any fault. -/
def verify_metadata_command (trusted untrusted : MetadataEnvelope) : Nat :=
  let metadataType := untrusted.signed.type
  if metadataType = "root" then
    match verify_root trusted untrusted with
    | Except.ok () => 0
    | Except.error _ => 10
  else
    match verify_delegation metadataType untrusted trusted with
    | Except.ok () => 0
    | Except.error _ => 20

theorem dictLookup_dictSet_self {α : Type} (m : List (String × α)) (k : String) (v : α) :
    dictLookup (dictSet m k v) k = some v := by
  induction m with
  | nil => simp [dictSet, dictLookup]
  | cons p rest ih =>
    obtain ⟨k', v'⟩ := p
    by_cases h : k' = k <;> simp [dictSet, dictLookup, h, ih]

theorem dictLookup_dictSet_ne {α : Type} (m : List (String × α)) (k k' : String) (v : α)
    (h : k' ≠ k) : dictLookup (dictSet m k v) k' = dictLookup m k' := by
  have hne : ¬k = k' := fun hh => h hh.symm
  induction m with
  | nil => simp [dictSet, dictLookup, hne]
  | cons p rest ih =>
    obtain ⟨a, b⟩ := p
    by_cases ha : a = k
    · subst ha
      simp [dictSet, dictLookup, hne]
    · by_cases ha' : a = k'
      · subst ha'
        simp [dictSet, dictLookup, ha]
      · simp [dictSet, dictLookup, ha, ha', ih]

theorem dictSet_dictSet_self {α : Type} (m : List (String × α)) (k : String) (v v' : α) :
    dictSet (dictSet m k v) k v' = dictSet m k v' := by
  induction m with
  | nil => simp [dictSet]
  | cons p rest ih =>
    obtain ⟨a, b⟩ := p
    by_cases ha : a = k <;> simp [dictSet, ha, ih]

theorem hexDigitChar_isHex (m : Nat) : isHexChar (hexDigitChar m) = true := by
  unfold hexDigitChar
  obtain ⟨r, hr, hlt⟩ : ∃ r, m % 16 = r ∧ r < 16 :=
    ⟨m % 16, rfl, Nat.mod_lt _ (by decide)⟩
  rw [hr]
  interval_cases r <;> decide

theorem natToHexRev_length (w n : Nat) : (natToHexRev w n).length = w := by
  induction w generalizing n with
  | zero => rfl
  | succ w ih => simp [natToHexRev, ih]

theorem natToHexRev_all_hex (w n : Nat) : (natToHexRev w n).all isHexChar = true := by
  induction w generalizing n with
  | zero => rfl
  | succ w ih => simp [natToHexRev, hexDigitChar_isHex, ih]

theorem isHexStringOfLength_natToHexPad (w n : Nat) :
    isHexStringOfLength w (natToHexPad w n) = true := by
  show ((natToHexRev w n).reverse.length == w && (natToHexRev w n).reverse.all isHexChar) = true
  have h1 : (natToHexRev w n).reverse.length = w := by
    rw [List.length_reverse, natToHexRev_length]
  have h2 : (natToHexRev w n).reverse.all isHexChar = true := by
    rw [List.all_eq_true] at *
    intro c hc
    exact (List.all_eq_true.mp (natToHexRev_all_hex w n)) c (List.mem_reverse.mp hc)
  simp [h1, h2]

theorem checkformat_signature_mkSigFor (m p : String) :
    checkformat_signature { signature := mkSigFor m p } = true :=
  isHexStringOfLength_natToHexPad 128 _

theorem isHexChar_mem (c : Char) (h : isHexChar c = true) : c ∈ hexDigitsList := by
  unfold isHexChar at h
  simpa using h

theorem toLower_of_isHexChar (c : Char) (h : isHexChar c = true) : Char.toLower c = c := by
  have hm := isHexChar_mem c h
  simp [hexDigitsList, hexDigitDigits, hexDigitLetters] at hm
  rcases hm with rfl | rfl | rfl | rfl | rfl | rfl | rfl | rfl | rfl | rfl | rfl | rfl | rfl | rfl | rfl | rfl <;> decide

theorem isHexChar_ne_space (c : Char) (h : isHexChar c = true) : c ≠ ' ' := by
  intro hc
  subst hc
  exact absurd h (by decide)

theorem isHexChar_ne_nbsp (c : Char) (h : isHexChar c = true) : c ≠ '\xa0' := by
  intro hc
  subst hc
  exact absurd h (by decide)

theorem map_toLower_of_hex (l : List Char) (hall : ∀ c ∈ l, isHexChar c = true) :
    l.map Char.toLower = l := by
  induction l with
  | nil => rfl
  | cons a t ih =>
    have ha := hall a (by simp)
    have ht : ∀ c ∈ t, isHexChar c = true := fun c hc => hall c (by simp [hc])
    simp [toLower_of_isHexChar a ha, ih ht]

theorem fetchNormalize_of_hex (f : String) (h : f.data.all isHexChar = true) :
    fetchNormalizeFingerprint f = f := by
  obtain ⟨l⟩ := f
  have hall : ∀ c ∈ l, isHexChar c = true := List.all_eq_true.mp h
  unfold fetchNormalizeFingerprint
  show String.mk (((l.map Char.toLower).filter _).filter _) = String.mk l
  rw [map_toLower_of_hex l hall]
  have h2 : l.filter (fun c => c != ' ') = l := by
    apply List.filter_eq_self.mpr
    intro c hc
    simpa using isHexChar_ne_space c (hall c hc)
  rw [h2]
  have h3 : l.filter (fun c => c != '\xa0') = l := by
    apply List.filter_eq_self.mpr
    intro c hc
    simpa using isHexChar_ne_nbsp c (hall c hc)
  rw [h3]

theorem checkformat_gpg_fingerprint_all_hex (f : String)
    (h : checkformat_gpg_fingerprint f = true) : f.data.all isHexChar = true := by
  unfold checkformat_gpg_fingerprint isHexStringOfLength at h
  rw [Bool.and_eq_true] at h
  exact h.2

theorem isHexStringOfLength_length (n : Nat) (s : String)
    (h : isHexStringOfLength n s = true) : s.length = n := by
  unfold isHexStringOfLength at h
  rw [Bool.and_eq_true] at h
  simpa using h.1

theorem checkformat_signature_ed25519Sign (m k : String) :
    checkformat_signature { signature := ed25519Sign m k } = true :=
  checkformat_signature_mkSigFor m _

/-- The computation lemma for sign_signable on well-formed input: it succeeds
and overwrites exactly the entry under the derived public key. -/
theorem sign_signable_eq (env : Signable) (key bytes : String)
    (hkey : checkformat_key key = true) (hser : canonSer env.signed = Except.ok bytes) :
    sign_signable env key = Except.ok { env with
      signatures := dictSet env.signatures (pubkeyOfSeed key)
        { signature := ed25519Sign bytes key } } := by
  unfold sign_signable serialize_and_sign
  simp [hkey, hser, checkformat_signature_ed25519Sign]

/-- C3: wrap_as_signable returns the envelope holding empty signatures and a
deep copy of the value exactly when the concrete type of the value lies in the
closed set of supported serializable kinds, raises TypeError otherwise, and in
particular rejects every value of unsupported concrete type even when that
value carries dict-like structure (strict type check, not structural
acceptance); wrap_as_signable performs no canonicalization and no
cryptographic work at all. -/
theorem wrap_as_signable_strict_type_check (v : PyValue) :
    (pyTypeOf v ∈ SUPPORTED_SERIALIZABLE_TYPES →
      wrap_as_signable v = Except.ok { signatures := [], signed := deepcopy v }) ∧
    (pyTypeOf v ∉ SUPPORTED_SERIALIZABLE_TYPES →
      ∃ msg, wrap_as_signable v = Except.error (PyError.TypeError msg)) ∧
    (∀ typeName kvs, ∃ msg,
      wrap_as_signable (PyValue.other typeName kvs) = Except.error (PyError.TypeError msg)) := by
  refine ⟨fun h => ?_, fun h => ?_, fun typeName kvs => ?_⟩
  · unfold wrap_as_signable
    rw [if_pos h]
  · unfold wrap_as_signable
    rw [if_neg h]
    exact ⟨_, rfl⟩
  · unfold wrap_as_signable
    rw [if_neg ?_]
    · exact ⟨_, rfl⟩
    · intro hmem
      simp [pyTypeOf, SUPPORTED_SERIALIZABLE_TYPES] at hmem

/-- C3 witness: a dict payload is wrapped, with empty signatures and a deep
copy of the payload. -/
theorem wrap_as_signable_strict_type_check_witness :
    wrap_as_signable (PyValue.dict [("a", PyValue.int 1)]) =
      Except.ok { signatures := [], signed := deepcopy (PyValue.dict [("a", PyValue.int 1)]) } :=
  (wrap_as_signable_strict_type_check (PyValue.dict [("a", PyValue.int 1)])).1 (by decide)

/-- C4: on a well-formed private key and serializable payload, sign_signable
mutates only the signatures map: the signed payload is unchanged, the entry
under the hex of the public key derived from the private key is exactly the
record holding the hex ed25519 signature over the canonical serialization of
the payload (overwriting any prior entry under that key), and the entry under
every other key is unchanged. -/
theorem sign_signable_frame (env : Signable) (key bytes : String)
    (hkey : checkformat_key key = true) (hser : canonSer env.signed = Except.ok bytes) :
    ∃ env', sign_signable env key = Except.ok env' ∧
      env'.signed = env.signed ∧
      dictLookup env'.signatures (pubkeyOfSeed key) = some { signature := ed25519Sign bytes key } ∧
      ∀ k, k ≠ pubkeyOfSeed key → dictLookup env'.signatures k = dictLookup env.signatures k := by
  refine ⟨_, sign_signable_eq env key bytes hkey hser, rfl, ?_, ?_⟩
  · exact dictLookup_dictSet_self env.signatures (pubkeyOfSeed key) _
  · intro k hk
    exact dictLookup_dictSet_ne env.signatures (pubkeyOfSeed key) k _ hk

/-- A fixed well-formed private key seed used by concrete witnesses. -/
def exKeyHex : String :=
  "0123456789abcdef0123456789abcdef0123456789abcdef0123456789abcdef"

/-- A small envelope with one pre-existing signature entry under another key,
used by concrete witnesses. -/
def exEnvelope : Signable :=
  { signatures := [("otherkey", { signature := "00" })], signed := PyValue.str "hello" }

/-- C4 witness: signing the concrete envelope succeeds, leaves the payload and
the foreign entry unchanged, and stores the signature under the derived public
key. -/
theorem sign_signable_frame_witness :
    ∃ env', sign_signable exEnvelope exKeyHex = Except.ok env' ∧
      env'.signed = exEnvelope.signed ∧
      dictLookup env'.signatures (pubkeyOfSeed exKeyHex) =
        some { signature := ed25519Sign "\"hello\"" exKeyHex } ∧
      ∀ k, k ≠ pubkeyOfSeed exKeyHex →
        dictLookup env'.signatures k = dictLookup exEnvelope.signatures k :=
  sign_signable_frame exEnvelope exKeyHex "\"hello\"" (by decide) (by rfl)

/-- C5: signing is idempotent per key -- signing twice in a row with the same
private key leaves the envelope in exactly the state produced by signing once,
because the modelled ed25519 signing is a deterministic function of the
message and the key, and the second call overwrites the same entry with an
identical record. -/
theorem sign_signable_idempotent (env : Signable) (key bytes : String)
    (hkey : checkformat_key key = true) (hser : canonSer env.signed = Except.ok bytes) :
    (sign_signable env key).bind (fun e => sign_signable e key) = sign_signable env key := by
  rw [sign_signable_eq env key bytes hkey hser]
  show sign_signable { env with
      signatures := dictSet env.signatures (pubkeyOfSeed key)
        { signature := ed25519Sign bytes key } } key = _
  rw [sign_signable_eq { env with
      signatures := dictSet env.signatures (pubkeyOfSeed key)
        { signature := ed25519Sign bytes key } } key bytes hkey hser]
  simp [dictSet_dictSet_self]

/-- C5 witness: double signing of the concrete envelope equals single
signing. -/
theorem sign_signable_idempotent_witness :
    (sign_signable exEnvelope exKeyHex).bind (fun e => sign_signable e exKeyHex) =
      sign_signable exEnvelope exKeyHex :=
  sign_signable_idempotent exEnvelope exKeyHex "\"hello\"" (by decide) (by rfl)

/-- C1: verify_root accepts exactly when both envelopes declare type root, the
untrusted version equals the trusted version plus exactly one, the continuity
check (verify_delegation of root for the untrusted envelope against the
trusted one) succeeds, and the self-consistency check (verify_delegation of
root for the untrusted envelope against itself) succeeds; and for root-typed
envelopes any other version number fails with a version-mismatch fault. -/
theorem verify_root_characterization (trusted untrusted : MetadataEnvelope) :
    (verify_root trusted untrusted = Except.ok () ↔
      (trusted.signed.type = "root" ∧ untrusted.signed.type = "root" ∧
       untrusted.signed.version = trusted.signed.version + 1 ∧
       verify_delegation "root" untrusted trusted = Except.ok () ∧
       verify_delegation "root" untrusted untrusted = Except.ok ())) ∧
    (trusted.signed.type = "root" → untrusted.signed.type = "root" →
      untrusted.signed.version ≠ trusted.signed.version + 1 →
      verify_root trusted untrusted = Except.error
        (CCTError.VersionMismatchFault (trusted.signed.version + 1) untrusted.signed.version)) := by
  constructor
  · unfold verify_root
    by_cases h1 : trusted.signed.type = "root" ∧ untrusted.signed.type = "root"
    · rw [if_pos h1]
      by_cases h2 : untrusted.signed.version = trusted.signed.version + 1
      · rw [if_pos h2]
        cases hc : verify_delegation "root" untrusted trusted with
        | error e => simp [h1.1, h1.2, h2, hc]
        | ok u =>
          cases u
          cases hs : verify_delegation "root" untrusted untrusted with
          | error e => simp [h1.1, h1.2, h2, hc, hs]
          | ok u =>
            cases u
            simp [h1.1, h1.2, h2, hc, hs]
      · rw [if_neg h2]
        simp [h1.1, h1.2, h2]
    · rw [if_neg h1]
      constructor
      · intro h
        exact absurd h (by simp)
      · rintro ⟨ht, hu, _⟩
        exact absurd ⟨ht, hu⟩ h1
  · intro ht hu hv
    unfold verify_root
    rw [if_pos ⟨ht, hu⟩, if_neg hv]

/-- Root metadata at version one, used by the C1 witness. -/
def exRootV1 : MetadataEnvelope :=
  { signatures := [],
    signed := { type := "root", version := 1, timestamp := "t1",
                delegations := [("root", { pubkeys := [], threshold := 0 })] } }

/-- Root metadata declaring version three, used by the C1 witness. -/
def exRootV3 : MetadataEnvelope :=
  { signatures := [],
    signed := { type := "root", version := 3, timestamp := "t3",
                delegations := [("root", { pubkeys := [], threshold := 0 })] } }

/-- C1 witness: for two root envelopes at versions one and three, verify_root
fails with the version-mismatch fault expecting version two. -/
theorem verify_root_characterization_witness :
    verify_root exRootV1 exRootV3 = Except.error (CCTError.VersionMismatchFault 2 3) :=
  (verify_root_characterization exRootV1 exRootV3).2 rfl rfl (by decide)

theorem signature_tally_congr (d : Delegation) (serialized : String)
    (sigs sigs' : List (String × SigRecord))
    (h : ∀ k, keyCountsTowardTally sigs' serialized k = keyCountsTowardTally sigs serialized k) :
    signature_tally d sigs' serialized = signature_tally d sigs serialized := by
  unfold signature_tally
  rw [funext h]

/-- C2 counterexample data: a delegation for the key-manager role held by one
key, with threshold one. -/
def cexDelegation : Delegation := { pubkeys := [exKeyHex], threshold := 1 }

/-- C2 counterexample data: the trusted envelope delegating key_mgr. -/
def cexTrusted : MetadataEnvelope :=
  { signatures := [],
    signed := { type := "root", version := 1, timestamp := "ts",
                delegations := [("key_mgr", cexDelegation)] } }

/-- C2 counterexample data: signed metadata declaring a different role. -/
def cexUntrustedSigned : RoleMetadata :=
  { type := "pkg_mgr", version := 1, timestamp := "ts", delegations := [] }

/-- C2 counterexample data: the untrusted envelope, carrying a valid signature
by the delegated key over its own canonical bytes, but declaring type pkg_mgr
rather than key_mgr. -/
def cexUntrusted : MetadataEnvelope :=
  { signatures := [(exKeyHex, { signature := mkSigFor (canonSignedRole cexUntrustedSigned) exKeyHex })],
    signed := cexUntrustedSigned }

set_option maxRecDepth 16384 in
/-- C2 counterexample: the trusted envelope holds a key_mgr delegation, the
tally of distinct valid signing keys meets the threshold, yet
verify_delegation rejects with a role-mismatch fault because the untrusted
envelope declares a different type; so acceptance is not equivalent to the
tally reaching the threshold. -/
theorem verify_delegation_role_mismatch_counterexample :
    dictLookup cexTrusted.signed.delegations "key_mgr" = some cexDelegation ∧
    cexDelegation.threshold ≤
      signature_tally cexDelegation cexUntrusted.signatures (canonSignedRole cexUntrusted.signed) ∧
    verify_delegation "key_mgr" cexUntrusted cexTrusted =
      Except.error (CCTError.RoleMismatchFault "key_mgr" "pkg_mgr") :=
  ⟨rfl, by decide, by rfl⟩

/-- C2 (amended): when the trusted envelope holds a delegation for the role,
verify_delegation succeeds iff the untrusted envelope declares the role name
as its type and the number of distinct keys appearing both in the delegation
key set and in the signatures map, with a parseable record whose signature
verifies against the recomputed canonical bytes, reaches the threshold;
adding an unparseable or invalid record under a fresh key leaves the tally
unchanged (it is skipped, not fatal); and overwriting the record of an
already-counted key with another valid record leaves the tally unchanged. -/
theorem verify_delegation_threshold (role : String) (untrusted trusted : MetadataEnvelope)
    (d : Delegation) (hd : dictLookup trusted.signed.delegations role = some d) :
    (verify_delegation role untrusted trusted = Except.ok () ↔
      (untrusted.signed.type = role ∧
       d.threshold ≤ signature_tally d untrusted.signatures (canonSignedRole untrusted.signed))) ∧
    (∀ k rec, dictLookup untrusted.signatures k = Option.none →
      (checkformat_signature rec && ed25519Verify rec.signature (canonSignedRole untrusted.signed) k) = false →
      signature_tally d (dictSet untrusted.signatures k rec) (canonSignedRole untrusted.signed) =
        signature_tally d untrusted.signatures (canonSignedRole untrusted.signed)) ∧
    (∀ k rec rec', dictLookup untrusted.signatures k = some rec →
      (checkformat_signature rec && ed25519Verify rec.signature (canonSignedRole untrusted.signed) k) = true →
      (checkformat_signature rec' && ed25519Verify rec'.signature (canonSignedRole untrusted.signed) k) = true →
      signature_tally d (dictSet untrusted.signatures k rec') (canonSignedRole untrusted.signed) =
        signature_tally d untrusted.signatures (canonSignedRole untrusted.signed)) := by
  refine ⟨?_, ?_, ?_⟩
  · by_cases hty : untrusted.signed.type = role
    · by_cases hth : d.threshold ≤
          signature_tally d untrusted.signatures (canonSignedRole untrusted.signed)
      · simp [verify_delegation, hd, hth, hty]
      · simp [verify_delegation, hd, hth, hty]
    · simp [verify_delegation, hd, hty]
  · intro k rec hnone hbad
    apply signature_tally_congr
    intro k'
    by_cases hk : k' = k
    · subst hk
      simp [keyCountsTowardTally, dictLookup_dictSet_self, hnone, hbad]
    · simp [keyCountsTowardTally, dictLookup_dictSet_ne untrusted.signatures k k' rec hk]
  · intro k rec rec' hsome hgood hgood'
    apply signature_tally_congr
    intro k'
    by_cases hk : k' = k
    · subst hk
      simp [keyCountsTowardTally, dictLookup_dictSet_self, hsome, hgood, hgood']
    · simp [keyCountsTowardTally, dictLookup_dictSet_ne untrusted.signatures k k' rec' hk]

/-- C2 witness data: signed metadata that properly declares the key_mgr
role. -/
def amvSigned : RoleMetadata :=
  { type := "key_mgr", version := 2, timestamp := "ts", delegations := [] }

/-- C2 witness data: the untrusted key_mgr envelope carrying the valid
signature by the delegated key. -/
def amvUntrusted : MetadataEnvelope :=
  { signatures := [(exKeyHex, { signature := mkSigFor (canonSignedRole amvSigned) exKeyHex })],
    signed := amvSigned }

set_option maxRecDepth 16384 in
/-- C2 witness: with the matching declared role and a tally meeting the
threshold, verify_delegation accepts the concrete envelope. -/
theorem verify_delegation_threshold_witness :
    verify_delegation "key_mgr" amvUntrusted cexTrusted = Except.ok () :=
  (verify_delegation_threshold "key_mgr" amvUntrusted cexTrusted cexDelegation rfl).1.mpr
    ⟨rfl, by decide⟩

/-- C8: the verify-metadata command returns exit status zero exactly when
verification succeeds; when the declared type of the untrusted metadata is
root it runs verify_root and returns 10 on any verification fault, and for
any other declared role it runs verify_delegation with the declared type as
the delegation name and returns 20 on any fault. -/
theorem verify_metadata_command_exit_codes (trusted untrusted : MetadataEnvelope) :
    (untrusted.signed.type = "root" →
      ((verify_metadata_command trusted untrusted = 0 ↔ verify_root trusted untrusted = Except.ok ()) ∧
       (∀ e, verify_root trusted untrusted = Except.error e →
         verify_metadata_command trusted untrusted = 10))) ∧
    (untrusted.signed.type ≠ "root" →
      ((verify_metadata_command trusted untrusted = 0 ↔
         verify_delegation untrusted.signed.type untrusted trusted = Except.ok ()) ∧
       (∀ e, verify_delegation untrusted.signed.type untrusted trusted = Except.error e →
         verify_metadata_command trusted untrusted = 20))) := by
  constructor
  · intro hroot
    unfold verify_metadata_command
    rw [if_pos hroot]
    cases hv : verify_root trusted untrusted with
    | error e => simp [hv]
    | ok u => cases u; simp [hv]
  · intro hrole
    unfold verify_metadata_command
    rw [if_neg hrole]
    cases hv : verify_delegation untrusted.signed.type untrusted trusted with
    | error e => simp [hv]
    | ok u => cases u; simp [hv]

/-- C8 witness data: a trusted envelope with no delegations at all. -/
def exC8Trusted : MetadataEnvelope :=
  { signatures := [],
    signed := { type := "root", version := 1, timestamp := "t", delegations := [] } }

/-- C8 witness data: an unsigned untrusted envelope declaring a non-root
role. -/
def exC8Untrusted : MetadataEnvelope :=
  { signatures := [],
    signed := { type := "key_mgr", version := 1, timestamp := "t", delegations := [] } }

/-- C8 witness: for a non-root untrusted file whose delegation verification
fails, the command returns exit status 20. -/
theorem verify_metadata_command_exit_codes_witness :
    verify_metadata_command exC8Trusted exC8Untrusted = 20 :=
  ((verify_metadata_command_exit_codes exC8Trusted exC8Untrusted).2 (by decide)).2
    (CCTError.UnknownDelegationFault "key_mgr") rfl

theorem fetch_keyval_from_gpg_canonical (fpr : String)
    (hfpr : checkformat_gpg_fingerprint fpr = true) :
    fetch_keyval_from_gpg fpr = Except.ok (gpg_raw_pubkey fpr) := by
  unfold fetch_keyval_from_gpg
  rw [fetchNormalize_of_hex fpr (checkformat_gpg_fingerprint_all_hex fpr hfpr)]
  simp [hfpr]

/-- The record that the GPG signing path stores: signature and other_headers,
no keyid, no see_also. -/
def gpgStoredRecord (data fpr : String) : SigRecord :=
  { signature := mkSigFor ("openpgp:" ++ data) (gpg_raw_pubkey fpr)
    other_headers := some (natToHexPad 50 (strHash ("openpgp-headers:" ++ fpr)))
    see_also := Option.none
    keyid := Option.none }

/-- C7: signing root metadata through the external OpenPGP collaborator stores
the record in the signatures map keyed by the raw ed25519 public key value
resolved from the fingerprint, a 64-hex-char string distinct from the
40-hex-char fingerprint itself (the entry under the fingerprint is untouched);
the stored record carries the signature and the other_headers field with no
keyid; and the see_also fingerprint field appears exactly when it is
explicitly requested of sign_via_gpg. -/
theorem gpg_signing_record (signable : Signable) (fpr data : String)
    (hfpr : checkformat_gpg_fingerprint fpr = true)
    (hser : canonSer signable.signed = Except.ok data) :
    ∃ env', sign_root_metadata_dict_via_gpg signable fpr = Except.ok env' ∧
      env'.signed = signable.signed ∧
      (∃ headers, dictLookup env'.signatures (gpg_raw_pubkey fpr) = some
        { signature := mkSigFor ("openpgp:" ++ data) (gpg_raw_pubkey fpr)
          other_headers := some headers
          see_also := Option.none
          keyid := Option.none }) ∧
      isHexStringOfLength 64 (gpg_raw_pubkey fpr) = true ∧
      gpg_raw_pubkey fpr ≠ fpr ∧
      dictLookup env'.signatures fpr = dictLookup signable.signatures fpr ∧
      (∀ rec, sign_via_gpg data fpr true = Except.ok rec →
        rec.see_also = some fpr ∧ rec.keyid = Option.none) := by
  have hhex : isHexStringOfLength 64 (gpg_raw_pubkey fpr) = true :=
    isHexStringOfLength_natToHexPad 64 _
  have hne : gpg_raw_pubkey fpr ≠ fpr := by
    intro h
    have h1 : (gpg_raw_pubkey fpr).length = 64 := isHexStringOfLength_length 64 _ hhex
    have h2 : fpr.length = 40 := isHexStringOfLength_length 40 fpr hfpr
    rw [h] at h1
    rw [h1] at h2
    exact absurd h2 (by decide)
  refine ⟨{ signable with signatures := dictSet signable.signatures (gpg_raw_pubkey fpr) (gpgStoredRecord data fpr) }, ?_, rfl, ?_, hhex, hne, ?_, ?_⟩
  · unfold sign_root_metadata_dict_via_gpg sign_via_gpg
    rw [hser]
    simp [hfpr, fetch_keyval_from_gpg_canonical fpr hfpr, gpg_create_signature, gpgStoredRecord]
  · exact ⟨_, dictLookup_dictSet_self signable.signatures (gpg_raw_pubkey fpr) _⟩
  · exact dictLookup_dictSet_ne signable.signatures (gpg_raw_pubkey fpr) fpr _ (Ne.symm hne)
  · intro rec hrec
    unfold sign_via_gpg at hrec
    rw [if_pos hfpr] at hrec
    simp at hrec
    subst hrec
    exact ⟨rfl, rfl⟩

/-- A fixed canonical 40-hex GPG fingerprint used by concrete witnesses. -/
def exFingerprint : String := "0123456789abcdef0123456789abcdef01234567"

/-- A minimal envelope used by the C7 witness. -/
def exGpgEnvelope : Signable := { signatures := [], signed := PyValue.str "x" }

/-- C7 witness: signing the concrete envelope via the GPG path stores, under
the 64-hex raw public key and not under the fingerprint, the record without
keyid and without see_also; and requesting the fingerprint makes it appear as
see_also. -/
theorem gpg_signing_record_witness :
    ∃ env', sign_root_metadata_dict_via_gpg exGpgEnvelope exFingerprint = Except.ok env' ∧
      env'.signed = exGpgEnvelope.signed ∧
      (∃ headers, dictLookup env'.signatures (gpg_raw_pubkey exFingerprint) = some
        { signature := mkSigFor ("openpgp:" ++ "\"x\"") (gpg_raw_pubkey exFingerprint)
          other_headers := some headers
          see_also := Option.none
          keyid := Option.none }) ∧
      isHexStringOfLength 64 (gpg_raw_pubkey exFingerprint) = true ∧
      gpg_raw_pubkey exFingerprint ≠ exFingerprint ∧
      dictLookup env'.signatures exFingerprint = dictLookup exGpgEnvelope.signatures exFingerprint ∧
      (∀ rec, sign_via_gpg "\"x\"" exFingerprint true = Except.ok rec →
        rec.see_also = some exFingerprint ∧ rec.keyid = Option.none) :=
  gpg_signing_record exGpgEnvelope exFingerprint "\"x\"" (by decide) (by rfl)

/-- C9: every externally-supplied string that becomes a 40-hex-char
fingerprint once all whitespace is removed and all letters are lowercased is
accepted by the gpg-key-lookup path, which resolves the raw public key for the
normalized canonical lowercase hex fingerprint. -/
theorem gpg_key_lookup_normalization (s : String)
    (h : checkformat_gpg_fingerprint (cliNormalizeFingerprint s) = true) :
    gpg_key_lookup s = Except.ok (gpg_raw_pubkey (cliNormalizeFingerprint s)) ∧
    (cliNormalizeFingerprint s).data.all isHexChar = true ∧
    (cliNormalizeFingerprint s).length = 40 := by
  refine ⟨?_, checkformat_gpg_fingerprint_all_hex _ h, isHexStringOfLength_length 40 _ h⟩
  unfold gpg_key_lookup
  exact fetch_keyval_from_gpg_canonical _ h

/-- C9 witness: an operator-pasted fingerprint with interspersed spaces, a
no-break space and uppercase hex is accepted and normalized. -/
theorem gpg_key_lookup_normalization_witness :
    gpg_key_lookup "94A3 EED0 806C 1F10 7754\xa0A446 FDAD 11B8 2DD4 0E8C" =
      Except.ok (gpg_raw_pubkey "94a3eed0806c1f107754a446fdad11b82dd40e8c") ∧
    (cliNormalizeFingerprint "94A3 EED0 806C 1F10 7754\xa0A446 FDAD 11B8 2DD4 0E8C").data.all
      isHexChar = true ∧
    (cliNormalizeFingerprint "94A3 EED0 806C 1F10 7754\xa0A446 FDAD 11B8 2DD4 0E8C").length = 40 :=
  gpg_key_lookup_normalization "94A3 EED0 806C 1F10 7754\xa0A446 FDAD 11B8 2DD4 0E8C" (by decide)

theorem dictLookup_eq_none_of_not_mem {α : Type} (l : List (String × α)) (name : String)
    (h : name ∉ l.map Prod.fst) : dictLookup l name = Option.none := by
  induction l with
  | nil => rfl
  | cons p rest ih =>
    obtain ⟨k, v⟩ := p
    rw [List.map_cons] at h
    have hk : ¬k = name := fun hh => h (by simp [hh])
    have hr : name ∉ rest.map Prod.fst := fun hh => h (by simp [hh])
    simp [dictLookup, hk, ih hr]

theorem serialize_and_sign_hex (md : PyValue) (priv s : String)
    (h : serialize_and_sign md priv = Except.ok s) : isHexStringOfLength 128 s = true := by
  unfold serialize_and_sign at h
  cases hc : canonSer md with
  | error e => rw [hc] at h; cases h
  | ok ser =>
    rw [hc] at h
    cases h
    exact isHexStringOfLength_natToHexPad 128 _

/-- The characterization of the repodata signing loop: on success, every
artifact of the processed entries (with unique names) maps in the output to
the single-entry record over its metadata, and every other name is
untouched. -/
theorem sign_repodata_loop_spec (withCheck : Bool) (pub priv : String) :
    ∀ (entries sigs sigs' : List (String × PyValue)),
      (entries.map Prod.fst).Nodup →
      sign_repodata_loop withCheck pub priv entries sigs = Except.ok sigs' →
      ((∀ name md, dictLookup entries name = some md →
        ∃ s, serialize_and_sign md priv = Except.ok s ∧
          dictLookup sigs' name =
            some (PyValue.dict [(pub, PyValue.dict [("signature", PyValue.str s)])])) ∧
      (∀ name, dictLookup entries name = Option.none →
        dictLookup sigs' name = dictLookup sigs name)) := by
  intro entries
  induction entries with
  | nil =>
    intro sigs sigs' _ h
    have hss : sigs = sigs' := by simpa [sign_repodata_loop] using h
    subst hss
    refine ⟨fun name md hmd => ?_, fun name _ => rfl⟩
    simp [dictLookup] at hmd
  | cons p rest ih =>
    obtain ⟨n0, md0⟩ := p
    intro sigs sigs' hnodup h
    rw [List.map_cons, List.nodup_cons] at hnodup
    obtain ⟨hn0, hrestnodup⟩ := hnodup
    unfold sign_repodata_loop at h
    split at h
    · exact absurd h (by simp)
    · rename_i s0 hser
      dsimp only at h
      split at h
      · exact absurd h (by simp)
      · rename_i hcond
        obtain ⟨ihA, ihB⟩ := ih
          (dictSet sigs n0 (PyValue.dict [(pub, PyValue.dict [("signature", PyValue.str s0)])]))
          sigs' hrestnodup h
        constructor
        · intro name md hmd
          by_cases hn : n0 = name
          · subst hn
            have hmd0 : md = md0 := by
              have := hmd
              simp [dictLookup] at this
              exact this.symm
            subst hmd0
            have hrest : dictLookup rest n0 = Option.none :=
              dictLookup_eq_none_of_not_mem rest n0 hn0
            refine ⟨s0, hser, ?_⟩
            rw [ihB n0 hrest, dictLookup_dictSet_self]
          · have hmd' : dictLookup rest name = some md := by
              simpa [dictLookup, hn] using hmd
            exact ihA name md hmd'
        · intro name hnone
          have hn : ¬n0 = name := by
            intro hh
            subst hh
            simp [dictLookup] at hnone
          have hrest : dictLookup rest name = Option.none := by
            simpa [dictLookup, hn] using hnone
          rw [ihB name hrest,
            dictLookup_dictSet_ne sigs n0 name _ (fun hh => hn hh.symm)]

/-- The signature record stored in repodata for one artifact metadata value:
it depends only on the metadata value and the key, never on the artifact
name. -/
def repodataRecordFor (priv : String) (s : String) : PyValue :=
  PyValue.dict [(pubkeyOfSeed priv, PyValue.dict [("signature", PyValue.str s)])]

/-- The characterization of sign_all_in_repodata on success: the output holds
a signatures mapping with exactly one entry per artifact of packages and of
the optional packages.conda (the latter winning on a shared name), each the
single-entry record over that artifact metadata, and nothing else. -/
theorem sign_all_in_repodata_spec (repodata : List (String × PyValue)) (priv : String)
    (pkgs conda out : List (String × PyValue))
    (hp : dictLookup repodata "packages" = some (PyValue.dict pkgs))
    (hc : dictLookup repodata "packages.conda" = some (PyValue.dict conda) ∨
      (dictLookup repodata "packages.conda" = Option.none ∧ conda = []))
    (hn1 : (pkgs.map Prod.fst).Nodup) (hn2 : (conda.map Prod.fst).Nodup)
    (hout : sign_all_in_repodata repodata priv = Except.ok out) :
    ∃ sigs, dictLookup out "signatures" = some (PyValue.dict sigs) ∧
      (∀ name, dictLookup conda name = Option.none → dictLookup pkgs name = Option.none →
        dictLookup sigs name = Option.none) ∧
      (∀ name md, dictLookup conda name = some md →
        ∃ s, serialize_and_sign md priv = Except.ok s ∧
          dictLookup sigs name = some (repodataRecordFor priv s) ∧
          isHexStringOfLength 128 s = true) ∧
      (∀ name md, dictLookup conda name = Option.none → dictLookup pkgs name = some md →
        ∃ s, serialize_and_sign md priv = Except.ok s ∧
          dictLookup sigs name = some (repodataRecordFor priv s) ∧
          isHexStringOfLength 128 s = true) := by
  unfold sign_all_in_repodata at hout
  split at hout
  · dsimp only at hout
    split at hout
    · rename_i heqp
      rw [hp] at heqp
      cases heqp
    · rename_i packagesVal heqp
      rw [hp] at heqp
      split at hout
      · rename_i packages
        injection heqp with heqp'
        injection heqp' with heqp''
        subst heqp''
        split at hout
        · simp at hout
        · rename_i sigs1 heql1
          obtain ⟨A1, B1⟩ := sign_repodata_loop_spec true (pubkeyOfSeed priv) priv
            pkgs [] sigs1 hn1 heql1
          split at hout
          · rename_i heqc
            rcases hc with hc1 | ⟨hc1, hc2⟩
            · rw [heqc] at hc1
              cases hc1
            · subst hc2
              injection hout with hout'
              subst hout'
              refine ⟨sigs1, dictLookup_dictSet_self repodata "signatures" _, ?_, ?_, ?_⟩
              · intro name _ hpk
                rw [B1 name hpk]
                rfl
              · intro name md hmd
                simp [dictLookup] at hmd
              · intro name md _ hmd
                obtain ⟨s, hs, hl⟩ := A1 name md hmd
                exact ⟨s, hs, hl, serialize_and_sign_hex md priv s hs⟩
          · rename_i packagesConda heqc
            rcases hc with hc1 | ⟨hc1, _⟩
            · rw [heqc] at hc1
              injection hc1 with hc1'
              injection hc1' with hc1''
              subst hc1''
              split at hout
              · simp at hout
              · rename_i sigs2 heql2
                obtain ⟨A2, B2⟩ := sign_repodata_loop_spec false (pubkeyOfSeed priv) priv
                  packagesConda sigs1 sigs2 hn2 heql2
                injection hout with hout'
                subst hout'
                refine ⟨sigs2, dictLookup_dictSet_self repodata "signatures" _, ?_, ?_, ?_⟩
                · intro name hcd hpk
                  rw [B2 name hcd, B1 name hpk]
                  rfl
                · intro name md hmd
                  obtain ⟨s, hs, hl⟩ := A2 name md hmd
                  exact ⟨s, hs, hl, serialize_and_sign_hex md priv s hs⟩
                · intro name md hcd hpk
                  obtain ⟨s, hs, hl⟩ := A1 name md hpk
                  refine ⟨s, hs, ?_, serialize_and_sign_hex md priv s hs⟩
                  rw [B2 name hcd, hl]
                  rfl
            · rw [heqc] at hc1
              cases hc1
          · simp at hout
      · simp at hout
  · simp at hout

/-- C6: for every repodata mapping that contains a packages entry, a
completed run of sign_all_in_repodata fully replaces any pre-existing
top-level signatures value: the resulting signatures mapping holds exactly
one entry per artifact listed in packages and in the optional packages.conda,
each mapping the signing public key hex to a record whose signature is a
128-hex-character string over the canonical serialization of that artifact
metadata, and no entry survives for any artifact not listed there. -/
theorem sign_all_in_repodata_replaces_signatures (repodata : List (String × PyValue))
    (priv : String) (pkgs conda out : List (String × PyValue))
    (hp : dictLookup repodata "packages" = some (PyValue.dict pkgs))
    (hc : dictLookup repodata "packages.conda" = some (PyValue.dict conda) ∨
      (dictLookup repodata "packages.conda" = Option.none ∧ conda = []))
    (hn1 : (pkgs.map Prod.fst).Nodup) (hn2 : (conda.map Prod.fst).Nodup)
    (hout : sign_all_in_repodata repodata priv = Except.ok out) :
    ∃ sigs, dictLookup out "signatures" = some (PyValue.dict sigs) ∧
      (∀ name, dictLookup conda name = Option.none → dictLookup pkgs name = Option.none →
        dictLookup sigs name = Option.none) ∧
      (∀ name md, dictLookup conda name = some md →
        ∃ s, serialize_and_sign md priv = Except.ok s ∧
          dictLookup sigs name = some (repodataRecordFor priv s) ∧
          isHexStringOfLength 128 s = true) ∧
      (∀ name md, dictLookup conda name = Option.none → dictLookup pkgs name = some md →
        ∃ s, serialize_and_sign md priv = Except.ok s ∧
          dictLookup sigs name = some (repodataRecordFor priv s) ∧
          isHexStringOfLength 128 s = true) :=
  sign_all_in_repodata_spec repodata priv pkgs conda out hp hc hn1 hn2 hout

/-- The per-artifact metadata that ends up signed for a name: the
packages.conda entry wins over the packages entry, mirroring the overwrite
order of the two loops. -/
def artifactMetadataLookup (conda pkgs : List (String × PyValue)) (name : String) :
    Option PyValue :=
  match dictLookup conda name with
  | some md => some md
  | Option.none => dictLookup pkgs name

/-- C10: the signature record stored for an artifact depends only on the
artifact metadata value and the signing key, not on the artifact name: two
artifact names carrying equal metadata values receive identical stored
records, so exchanging the entries of identically-described artifacts is
invisible to signature verification. -/
theorem sign_all_signature_name_independent (repodata : List (String × PyValue))
    (priv : String) (pkgs conda out : List (String × PyValue)) (n1 n2 : String) (v : PyValue)
    (hp : dictLookup repodata "packages" = some (PyValue.dict pkgs))
    (hc : dictLookup repodata "packages.conda" = some (PyValue.dict conda) ∨
      (dictLookup repodata "packages.conda" = Option.none ∧ conda = []))
    (hn1 : (pkgs.map Prod.fst).Nodup) (hn2 : (conda.map Prod.fst).Nodup)
    (hout : sign_all_in_repodata repodata priv = Except.ok out)
    (h1 : artifactMetadataLookup conda pkgs n1 = some v)
    (h2 : artifactMetadataLookup conda pkgs n2 = some v) :
    ∃ sigs, dictLookup out "signatures" = some (PyValue.dict sigs) ∧
      ∃ s, serialize_and_sign v priv = Except.ok s ∧
        dictLookup sigs n1 = some (repodataRecordFor priv s) ∧
        dictLookup sigs n2 = some (repodataRecordFor priv s) ∧
        dictLookup sigs n1 = dictLookup sigs n2 := by
  obtain ⟨sigs, hsig, P1, P2, P3⟩ :=
    sign_all_in_repodata_spec repodata priv pkgs conda out hp hc hn1 hn2 hout
  have g1 : ∃ s, serialize_and_sign v priv = Except.ok s ∧
      dictLookup sigs n1 = some (repodataRecordFor priv s) := by
    unfold artifactMetadataLookup at h1
    cases hcd : dictLookup conda n1 with
    | some md =>
      rw [hcd] at h1
      injection h1 with h1'
      subst h1'
      obtain ⟨s, hs, hl, _⟩ := P2 n1 md hcd
      exact ⟨s, hs, hl⟩
    | none =>
      rw [hcd] at h1
      obtain ⟨s, hs, hl, _⟩ := P3 n1 v hcd h1
      exact ⟨s, hs, hl⟩
  have g2 : ∃ s, serialize_and_sign v priv = Except.ok s ∧
      dictLookup sigs n2 = some (repodataRecordFor priv s) := by
    unfold artifactMetadataLookup at h2
    cases hcd : dictLookup conda n2 with
    | some md =>
      rw [hcd] at h2
      injection h2 with h2'
      subst h2'
      obtain ⟨s, hs, hl, _⟩ := P2 n2 md hcd
      exact ⟨s, hs, hl⟩
    | none =>
      rw [hcd] at h2
      obtain ⟨s, hs, hl, _⟩ := P3 n2 v hcd h2
      exact ⟨s, hs, hl⟩
  obtain ⟨s1, hs1, hl1⟩ := g1
  obtain ⟨s2, hs2, hl2⟩ := g2
  have hss : s1 = s2 := by
    rw [hs1] at hs2
    exact Except.ok.inj hs2
  subst hss
  have heq : dictLookup sigs n1 = dictLookup sigs n2 := by rw [hl1, hl2]
  exact ⟨sigs, hsig, s1, hs1, hl1, hl2, heq⟩

/-- The packages mapping of the concrete repodata used by witnesses. -/
def exPkgs : List (String × PyValue) :=
  [("foo-1.0-0.tar.bz2", PyValue.dict [("name", PyValue.str "foo")]),
   ("bar-2.0-0.tar.bz2", PyValue.dict [("name", PyValue.str "bar")])]

/-- The packages.conda mapping of the concrete repodata used by witnesses;
its foo artifact carries metadata equal to the foo tarball metadata. -/
def exConda : List (String × PyValue) :=
  [("foo-1.0-0.conda", PyValue.dict [("name", PyValue.str "foo")])]

/-- The concrete repodata used by witnesses, including a stale pre-existing
signatures value that signing must replace. -/
def exRepodata : List (String × PyValue) :=
  [("info", PyValue.dict []),
   ("packages", PyValue.dict exPkgs),
   ("packages.conda", PyValue.dict exConda),
   ("signatures", PyValue.str "stale")]

/-- The repodata produced by signing the concrete repodata. -/
def exRepodataOut : List (String × PyValue) :=
  match sign_all_in_repodata exRepodata exKeyHex with
  | Except.ok r => r
  | Except.error _ => []

set_option maxRecDepth 32768 in
/-- C6 witness: signing the concrete repodata succeeds and its output
signatures mapping is characterized entry by entry. -/
theorem sign_all_in_repodata_replaces_signatures_witness :
    ∃ sigs, dictLookup exRepodataOut "signatures" = some (PyValue.dict sigs) ∧
      (∀ name, dictLookup exConda name = Option.none → dictLookup exPkgs name = Option.none →
        dictLookup sigs name = Option.none) ∧
      (∀ name md, dictLookup exConda name = some md →
        ∃ s, serialize_and_sign md exKeyHex = Except.ok s ∧
          dictLookup sigs name = some (repodataRecordFor exKeyHex s) ∧
          isHexStringOfLength 128 s = true) ∧
      (∀ name md, dictLookup exConda name = Option.none → dictLookup exPkgs name = some md →
        ∃ s, serialize_and_sign md exKeyHex = Except.ok s ∧
          dictLookup sigs name = some (repodataRecordFor exKeyHex s) ∧
          isHexStringOfLength 128 s = true) :=
  sign_all_in_repodata_replaces_signatures exRepodata exKeyHex exPkgs exConda exRepodataOut
    (by rfl) (Or.inl (by rfl)) (by decide) (by decide) (by rfl)

set_option maxRecDepth 32768 in
/-- C10 witness: the conda and tarball variants of the foo artifact carry
equal metadata and receive identical stored signature records. -/
theorem sign_all_signature_name_independent_witness :
    ∃ sigs, dictLookup exRepodataOut "signatures" = some (PyValue.dict sigs) ∧
      ∃ s, serialize_and_sign (PyValue.dict [("name", PyValue.str "foo")]) exKeyHex = Except.ok s ∧
        dictLookup sigs "foo-1.0-0.conda" = some (repodataRecordFor exKeyHex s) ∧
        dictLookup sigs "foo-1.0-0.tar.bz2" = some (repodataRecordFor exKeyHex s) ∧
        dictLookup sigs "foo-1.0-0.conda" = dictLookup sigs "foo-1.0-0.tar.bz2" :=
  sign_all_signature_name_independent exRepodata exKeyHex exPkgs exConda exRepodataOut
    "foo-1.0-0.conda" "foo-1.0-0.tar.bz2" (PyValue.dict [("name", PyValue.str "foo")])
    (by rfl) (Or.inl (by rfl)) (by decide) (by decide) (by rfl) (by rfl) (by rfl)

end CondaContentTrust
